import Mathlib

/-
Verification of the fishscanner image pipeline (src/engine/simplescanner.py,
src/main_ocean.py) against its natural-language specification.

The pure computations of SimpleScanner.scan and SimpleScanner.remove_background
are embedded shallowly.  Calls into the OpenCV library (marker detection,
perspective warping, resizing, adaptive thresholding, contour extraction and
morphology) are external collaborators: the embedding takes their results as
explicit inputs, and models exactly the arithmetic that the repository itself
performs on those results.
-/

namespace FishScanner

/-! ## Marker model (interface of cv2.aruco detectMarkers, simplescanner.py line 36)

A detected marker is an integer id together with four corner points in the
detector order.  The Python code converts the (float) corner coordinates
with int() before any use, so corners are embedded as integer points. -/

structure Marker where
  id : ℤ
  corners : Fin 4 → ℤ × ℤ

/-- Role ids, simplescanner.py lines 18-21. -/
def markerTopLeftId : ℤ := 3

def markerTopRightId : ℤ := 1

def markerBottomLeftId : ℤ := 4

def markerBottomRightId : ℤ := 2

/-- The role-assignment loop of scan (simplescanner.py lines 40-51): every
marker whose id equals the role id overwrites the previously selected corner,
so the fold starts from none and keeps the latest match.  `idx` is the
position inside the marker quad that the role uses (0 for top-left, 1 for
top-right, 2 for bottom-right, 3 for bottom-left). -/
def scanSelect (rid : ℤ) (idx : Fin 4) (ms : List Marker) : Option (ℤ × ℤ) :=
  ms.foldl (fun acc m => if m.id = rid then some (m.corners idx) else acc) none

/-- Truncated euclidean distance between two integer points:
int(np.sqrt((px-qx)**2 + (py-qy)**2)), simplescanner.py lines 61-67.
For pixel-scale integer inputs the double sqrt is exact enough that the
truncation equals the integer square root of the sum of squares. -/
def distTrunc (p q : ℤ × ℤ) : ℕ :=
  Nat.sqrt (((p.1 - q.1) ^ 2 + (p.2 - q.2) ^ 2).toNat)

/-- The only error scan raises: ValueError, simplescanner.py line 54. -/
inductive ScanError where
  | valueError : String → ScanError
deriving DecidableEq

def markersMsg : String := "Markers in the image are not found"

/-- The data scan hands to the external cv2 perspective-transform collaborator
(simplescanner.py lines 56-77): the selected quad and the destination size
(maxWidth, maxHeight) that cv2.warpPerspective uses for the rectified image. -/
structure WarpRequest where
  tl : ℤ × ℤ
  tr : ℤ × ℤ
  br : ℤ × ℤ
  bl : ℤ × ℤ
  w : ℕ
  h : ℕ
deriving DecidableEq

/-- The branch on the four selected corners (simplescanner.py lines 53-79):
if any is missing, raise; otherwise compute the destination size and emit the
warp request.  Width from the bottom and top edges, height from the right and
left edges, each the max of the two truncated lengths, with no lower clamp. -/
def scanAux :
    Option (ℤ × ℤ) → Option (ℤ × ℤ) → Option (ℤ × ℤ) → Option (ℤ × ℤ) →
      Except ScanError WarpRequest
  | some tl, some tr, some br, some bl =>
      Except.ok
        ⟨tl, tr, br, bl,
          max (distTrunc br bl) (distTrunc tr tl),
          max (distTrunc tr br) (distTrunc tl bl)⟩
  | none, _, _, _ => Except.error (ScanError.valueError markersMsg)
  | some _, none, _, _ => Except.error (ScanError.valueError markersMsg)
  | some _, some _, none, _ => Except.error (ScanError.valueError markersMsg)
  | some _, some _, some _, none => Except.error (ScanError.valueError markersMsg)

/-- SimpleScanner.scan, modeled up to the external cv2 homography call: the
input is the detected marker list, the successful output is the data passed
to cv2.getPerspectiveTransform / cv2.warpPerspective. -/
def scan (ms : List Marker) : Except ScanError WarpRequest :=
  scanAux (scanSelect markerTopLeftId 0 ms) (scanSelect markerTopRightId 1 ms)
    (scanSelect markerBottomRightId 2 ms) (scanSelect markerBottomLeftId 3 ms)

/-! ### Helper lemmas about scanSelect -/

theorem scanSelect_append_singleton (rid : ℤ) (idx : Fin 4) (ms : List Marker) (m : Marker) :
    scanSelect rid idx (ms ++ [m]) =
      if m.id = rid then some (m.corners idx) else scanSelect rid idx ms := by
  simp [scanSelect, List.foldl_append]

theorem scanSelect_eq_getLast_filter (rid : ℤ) (idx : Fin 4) (ms : List Marker) :
    scanSelect rid idx ms =
      ((ms.filter fun m => decide (m.id = rid)).getLast?).map fun m => m.corners idx := by
  induction ms using List.reverseRecOn with
  | nil => simp [scanSelect]
  | append_singleton ms m ih =>
      rw [scanSelect_append_singleton]
      by_cases h : m.id = rid
      · simp [h, List.filter_append, List.getLast?_concat]
      · simp [h, List.filter_append, ih]

theorem scanSelect_none_of (rid : ℤ) (idx : Fin 4) (ms : List Marker)
    (h : ∀ m ∈ ms, m.id ≠ rid) : scanSelect rid idx ms = none := by
  rw [scanSelect_eq_getLast_filter]
  have : ms.filter (fun m => decide (m.id = rid)) = [] := by
    rw [List.filter_eq_nil_iff]
    intro m hm
    simpa using h m hm
  simp [this]

theorem scanAux_error (a b c d : Option (ℤ × ℤ)) (e : ScanError)
    (h : scanAux a b c d = Except.error e) : e = ScanError.valueError markersMsg := by
  cases a <;> cases b <;> cases c <;> cases d <;> simp [scanAux] at h <;> exact h.symm

theorem scanAux_ok (a b c d : Option (ℤ × ℤ)) (req : WarpRequest)
    (h : scanAux a b c d = Except.ok req) :
    req.w = max (distTrunc req.br req.bl) (distTrunc req.tr req.tl) ∧
      req.h = max (distTrunc req.tr req.br) (distTrunc req.tl req.bl) := by
  cases a <;> cases b <;> cases c <;> cases d <;>
    first
      | exact Except.noConfusion h
      | (injection h with h; subst h; exact ⟨rfl, rfl⟩)

/-! ## Concrete detection results used by the claims -/

def msMissingTL : List Marker :=
  [⟨1, fun _ => (10, 0)⟩, ⟨2, fun _ => (10, 10)⟩, ⟨4, fun _ => (0, 10)⟩]

def msMissingBL : List Marker :=
  [⟨3, fun _ => (0, 0)⟩, ⟨1, fun _ => (10, 0)⟩, ⟨2, fun _ => (10, 10)⟩]

def msMissingTR : List Marker :=
  [⟨3, fun _ => (0, 0)⟩, ⟨2, fun _ => (10, 10)⟩, ⟨4, fun _ => (0, 10)⟩]

def msDupTL : List Marker :=
  [⟨3, fun _ => (0, 0)⟩, ⟨3, fun _ => (10, 10)⟩,
   ⟨1, fun _ => (20, 0)⟩, ⟨2, fun _ => (20, 20)⟩, ⟨4, fun _ => (0, 20)⟩]

def msDegenerate : List Marker :=
  [⟨3, fun _ => (5, 5)⟩, ⟨1, fun _ => (5, 5)⟩, ⟨2, fun _ => (5, 5)⟩, ⟨4, fun _ => (5, 5)⟩]

def msDegenWidth : List Marker :=
  [⟨3, fun _ => (0, 0)⟩, ⟨1, fun _ => (0, 0)⟩, ⟨2, fun _ => (0, 5)⟩, ⟨4, fun _ => (0, 5)⟩]

def msRect : List Marker :=
  [⟨3, fun _ => (0, 0)⟩, ⟨1, fun _ => (100, 0)⟩, ⟨2, fun _ => (100, 50)⟩, ⟨4, fun _ => (0, 50)⟩]

/-! ## C1: missing required markers -/

/-- C1 counterexample: the claim says the MarkersNotFound error carries which
role(s) are missing.  It does not: a detection result missing only the
TopLeft role (id 3) and one missing only the BottomLeft role (id 4) produce
the very same fixed ValueError, so the error carries no missing-role detail. -/
theorem scan_missing_role_error_detail_cex :
    scan msMissingTL = scan msMissingBL ∧
      scan msMissingTL = Except.error (ScanError.valueError markersMsg) :=
  ⟨rfl, rfl⟩

/-- C1 (amended): whenever at least one required role id is absent from the
detected markers, scan fails with the fixed
ValueError "Markers in the image are not found" (carrying no missing-role
detail) and no warp request, hence no rectified image or RGBA result, is
produced. -/
theorem scan_missing_role_fails (ms : List Marker)
    (h : (∀ m ∈ ms, m.id ≠ markerTopLeftId) ∨ (∀ m ∈ ms, m.id ≠ markerTopRightId) ∨
      (∀ m ∈ ms, m.id ≠ markerBottomRightId) ∨ (∀ m ∈ ms, m.id ≠ markerBottomLeftId)) :
    scan ms = Except.error (ScanError.valueError markersMsg) := by
  unfold scan
  rcases h with h | h | h | h
  · rw [scanSelect_none_of _ 0 _ h]
    cases scanSelect markerTopRightId 1 ms <;> cases scanSelect markerBottomRightId 2 ms <;>
      cases scanSelect markerBottomLeftId 3 ms <;> rfl
  · rw [scanSelect_none_of _ 1 _ h]
    cases scanSelect markerTopLeftId 0 ms <;> cases scanSelect markerBottomRightId 2 ms <;>
      cases scanSelect markerBottomLeftId 3 ms <;> rfl
  · rw [scanSelect_none_of _ 2 _ h]
    cases scanSelect markerTopLeftId 0 ms <;> cases scanSelect markerTopRightId 1 ms <;>
      cases scanSelect markerBottomLeftId 3 ms <;> rfl
  · rw [scanSelect_none_of _ 3 _ h]
    cases scanSelect markerTopLeftId 0 ms <;> cases scanSelect markerTopRightId 1 ms <;>
      cases scanSelect markerBottomRightId 2 ms <;> rfl

/-- C1 witness: a concrete detection result without the TopLeft id. -/
theorem scan_missing_role_fails_w :
    (∀ m ∈ msMissingTL, m.id ≠ markerTopLeftId) ∧
      scan msMissingTL = Except.error (ScanError.valueError markersMsg) :=
  ⟨by decide, scan_missing_role_fails msMissingTL (Or.inl (by decide))⟩

/-! ## C4: destination size of the rectified image -/

/-- Destination width as the spec sentence words it: the larger of the two
truncated opposite-edge lengths, with a minimum of 1. -/
def specDstWidth (tl tr br bl : ℤ × ℤ) : ℕ :=
  max (max (distTrunc br bl) (distTrunc tr tl)) 1

/-- Destination height as the spec sentence words it. -/
def specDstHeight (tl tr br bl : ℤ × ℤ) : ℕ :=
  max (max (distTrunc tr br) (distTrunc tl bl)) 1

/-- C4 counterexample: the code applies no minimum of 1.  With coincident top
markers and coincident bottom markers the computed destination width is 0,
while the spec formula with a minimum of 1 gives 1. -/
theorem scan_dst_size_cex :
    scan msDegenWidth = Except.ok ⟨(0, 0), (0, 0), (0, 5), (0, 5), 0, 5⟩ ∧
      specDstWidth (0, 0) (0, 0) (0, 5) (0, 5) = 1 ∧ (0 : ℕ) ≠ 1 := by
  refine ⟨?_, ?_, by decide⟩
  · simp [scan, scanSelect, msDegenWidth, markerTopLeftId, markerTopRightId,
      markerBottomRightId, markerBottomLeftId, scanAux, distTrunc]
    norm_num
  · simp [specDstWidth, distTrunc]

/-- C4 (amended): the destination size scan passes to the warp is exactly
width = max(trunc dist(br,bl), trunc dist(tr,tl)) and
height = max(trunc dist(tr,br), trunc dist(tl,bl)), with no minimum clamp
(a degenerate quad can yield dimension 0). -/
theorem scan_dst_size (ms : List Marker) (req : WarpRequest)
    (h : scan ms = Except.ok req) :
    req.w = max (distTrunc req.br req.bl) (distTrunc req.tr req.tl) ∧
      req.h = max (distTrunc req.tr req.br) (distTrunc req.tl req.bl) :=
  scanAux_ok _ _ _ _ req h

/-- C4 witness: a 100 by 50 axis-aligned rectangle of markers. -/
theorem scan_dst_size_w :
    scan msRect = Except.ok ⟨(0, 0), (100, 0), (100, 50), (0, 50), 100, 50⟩ ∧
      ((100 : ℕ) = max (distTrunc ((100, 50) : ℤ × ℤ) ((0, 50) : ℤ × ℤ))
          (distTrunc ((100, 0) : ℤ × ℤ) ((0, 0) : ℤ × ℤ)) ∧
        (50 : ℕ) = max (distTrunc ((100, 0) : ℤ × ℤ) ((100, 50) : ℤ × ℤ))
          (distTrunc ((0, 0) : ℤ × ℤ) ((0, 50) : ℤ × ℤ))) := by
  have h : scan msRect = Except.ok ⟨(0, 0), (100, 0), (100, 50), (0, 50), 100, 50⟩ := by
    simp [scan, scanSelect, msRect, markerTopLeftId, markerTopRightId,
      markerBottomRightId, markerBottomLeftId, scanAux, distTrunc]
    norm_num
  exact ⟨h, scan_dst_size msRect _ h⟩

/-! ## C8: duplicate role ids -/

/-- C8 counterexample: with two markers of id 3 the claim says the first in
detection order is used; scan in fact uses the last one: the selected
top-left corner is (10, 10), the corner of the second id-3 marker, not the
first marker corner (0, 0). -/
theorem scan_duplicate_uses_last_cex :
    (msDupTL.head?.map Marker.id = some 3) ∧
      ((msDupTL.head?.map fun m => m.corners 0) = some ((0, 0) : ℤ × ℤ)) ∧
      scan msDupTL = Except.ok ⟨(10, 10), (20, 0), (20, 20), (0, 20), 20, 20⟩ ∧
      ((0, 0) : ℤ × ℤ) ≠ (10, 10) := by
  refine ⟨rfl, rfl, ?_, by decide⟩
  simp [scan, scanSelect, msDupTL, markerTopLeftId, markerTopRightId,
    markerBottomRightId, markerBottomLeftId, scanAux, distTrunc]
  norm_num

/-- Role corner selection as the amended claim words it: the LAST marker with
the role id in detection order supplies the corner. -/
def lastRoleCorner (rid : ℤ) (idx : Fin 4) (ms : List Marker) : Option (ℤ × ℤ) :=
  ((ms.filter fun m => decide (m.id = rid)).getLast?).map fun m => m.corners idx

/-- Scan as the amended claim words it: last duplicate wins, otherwise as scan. -/
def scanSpecLast (ms : List Marker) : Except ScanError WarpRequest :=
  scanAux (lastRoleCorner markerTopLeftId 0 ms) (lastRoleCorner markerTopRightId 1 ms)
    (lastRoleCorner markerBottomRightId 2 ms) (lastRoleCorner markerBottomLeftId 3 ms)

/-- C8 (amended): for duplicate required ids scan uses the corners of the LAST
such marker in detection order (each later match overwrites the earlier one),
and the result is a deterministic function of the detection result: scan
agrees everywhere with the last-wins reference definition. -/
theorem scan_duplicate_uses_last (ms : List Marker) : scan ms = scanSpecLast ms := by
  unfold scan scanSpecLast lastRoleCorner
  rw [scanSelect_eq_getLast_filter, scanSelect_eq_getLast_filter,
    scanSelect_eq_getLast_filter, scanSelect_eq_getLast_filter]

/-! ## C9: degenerate quads and the error surface -/

/-- C9 counterexample: with all four required markers detected at the very
same point the calibration quad has zero area, yet scan raises nothing: it
hands the degenerate quad (with destination size 0 by 0) straight to the
external homography collaborator.  No InvalidGeometry failure distinguished
from MarkersNotFound exists anywhere in the code. -/
theorem scan_degenerate_no_invalid_geometry_cex :
    scan msDegenerate = Except.ok ⟨(5, 5), (5, 5), (5, 5), (5, 5), 0, 0⟩ :=
  rfl

/-- C9 (amended): the only checked failure scan can surface is the fixed
markers-not-found ValueError; scan performs no degeneracy check, so no
InvalidGeometry error is ever produced, and any failure inside the external
homography call would propagate as an unchecked exception. -/
theorem scan_error_surface_unique (ms : List Marker) (e : ScanError)
    (h : scan ms = Except.error e) : e = ScanError.valueError markersMsg :=
  scanAux_error _ _ _ _ e h

/-- C9 witness: a failing input (missing TopRight id) whose error is the fixed
ValueError. -/
theorem scan_error_surface_unique_w :
    scan msMissingTR = Except.error (ScanError.valueError markersMsg) ∧
      ScanError.valueError markersMsg = ScanError.valueError markersMsg :=
  ⟨rfl, scan_error_surface_unique msMissingTR _ rfl⟩

/-! ## C10: markers with non-required ids are ignored -/

/-- A marker carries one of the four required role ids. -/
def isRequiredId (m : Marker) : Bool :=
  decide (m.id = markerTopLeftId) || decide (m.id = markerTopRightId) ||
    decide (m.id = markerBottomRightId) || decide (m.id = markerBottomLeftId)

theorem scanSelect_foldl_filter (rid : ℤ) (idx : Fin 4)
    (hr : ∀ m : Marker, m.id = rid → isRequiredId m = true) :
    ∀ (ms : List Marker) (acc : Option (ℤ × ℤ)),
      (ms.filter isRequiredId).foldl
          (fun acc m => if m.id = rid then some (m.corners idx) else acc) acc =
        ms.foldl (fun acc m => if m.id = rid then some (m.corners idx) else acc) acc := by
  intro ms
  induction ms with
  | nil => intro acc; rfl
  | cons m t ih =>
      intro acc
      by_cases hm : isRequiredId m = true
      · rw [List.filter_cons_of_pos hm]
        simp only [List.foldl_cons]
        exact ih _
      · rw [List.filter_cons_of_neg (by simpa using hm)]
        simp only [List.foldl_cons]
        have hne : ¬ m.id = rid := fun hEq => hm (hr m hEq)
        rw [if_neg hne]
        exact ih acc

theorem scanSelect_filter_required (rid : ℤ) (idx : Fin 4)
    (hr : ∀ m : Marker, m.id = rid → isRequiredId m = true) (ms : List Marker) :
    scanSelect rid idx (ms.filter isRequiredId) = scanSelect rid idx ms :=
  scanSelect_foldl_filter rid idx hr ms none

theorem requiredTL : ∀ m : Marker, m.id = markerTopLeftId → isRequiredId m = true := by
  intro m hm; simp [isRequiredId, hm]

theorem requiredTR : ∀ m : Marker, m.id = markerTopRightId → isRequiredId m = true := by
  intro m hm; simp [isRequiredId, hm]

theorem requiredBR : ∀ m : Marker, m.id = markerBottomRightId → isRequiredId m = true := by
  intro m hm; simp [isRequiredId, hm]

theorem requiredBL : ∀ m : Marker, m.id = markerBottomLeftId → isRequiredId m = true := by
  intro m hm; simp [isRequiredId, hm]

theorem scan_filter_required (ms : List Marker) :
    scan (ms.filter isRequiredId) = scan ms := by
  unfold scan
  rw [scanSelect_filter_required _ _ requiredTL, scanSelect_filter_required _ _ requiredTR,
    scanSelect_filter_required _ _ requiredBR, scanSelect_filter_required _ _ requiredBL]

/-- C10: detected markers whose ids are outside the four required role ids
have no effect on the output of scan: two detection results that agree after
discarding the non-required-id markers give equal scan results (and hence
identical rectified images or identical failures). -/
theorem scan_ignores_extra_markers (ms1 ms2 : List Marker)
    (h : ms1.filter isRequiredId = ms2.filter isRequiredId) : scan ms1 = scan ms2 := by
  calc scan ms1 = scan (ms1.filter isRequiredId) := (scan_filter_required ms1).symm
    _ = scan (ms2.filter isRequiredId) := by rw [h]
    _ = scan ms2 := scan_filter_required ms2

/-- A marker with a non-required id, used by the C10 witness. -/
def markerExtra : Marker := ⟨7, fun _ => (50, 50)⟩

/-- C10 witness: adding a marker of id 7 leaves the scan result unchanged. -/
theorem scan_ignores_extra_markers_w :
    msRect.filter isRequiredId = (msRect ++ [markerExtra]).filter isRequiredId ∧
      scan msRect = scan (msRect ++ [markerExtra]) :=
  ⟨rfl, scan_ignores_extra_markers _ _ rfl⟩

/-! ## remove_background (simplescanner.py lines 81-183)

Images are embedded as functions from (column, row) to the 8-bit channel
value; all stages work on the canonical 800 by 600 canvas that the external
cv2.resize call produces (line 90).  The external cv2 stages — adaptive
thresholding, contour extraction, drawContours, morphological close, dilate
and gradient — are collaborators; the embedding takes their outputs (whether
any contour was found, the filled-and-dilated contour mask, and the gradient
mask) as inputs and models exactly the arithmetic the repository applies to
them afterwards: the stencil rectangles, the 5 by 5 Gaussian blur, cv2.min,
cv2.multiply with scale 1/255, cv2.bitwise_and, saturating cv2.add, the
127/255 binarization and the RGBA composition. -/

abbrev Img := ℕ → ℕ → ℕ

def targetW : ℕ := 800

def targetH : ℕ := 600

def markerSize : ℕ := 110

def padding : ℕ := 15

def gradientWidth : ℕ := 5

/-- The stencil canvas of create_marker_mask before blurring (lines 136-142):
a 255 canvas, an inclusive filled rectangle of 128 from (x+padding, y+padding)
to (x+size-padding, y+size-padding), and an inner inclusive rectangle of 0
further inset by gradient_width (cv2.rectangle with negative thickness fills
both corner pixels inclusively; the later fill overwrites the earlier). -/
def markerStencil (mx my : ℕ) : Img := fun x y =>
  if mx + padding + gradientWidth ≤ x ∧ x ≤ mx + markerSize - padding - gradientWidth ∧
      my + padding + gradientWidth ≤ y ∧ y ≤ my + markerSize - padding - gradientWidth then 0
  else if mx + padding ≤ x ∧ x ≤ mx + markerSize - padding ∧
      my + padding ≤ y ∧ y ≤ my + markerSize - padding then 128
  else 255

/-- BORDER_REFLECT_101 index folding used by cv2.GaussianBlur at the canvas
edges. -/
def reflect101 (n : ℕ) (i : ℤ) : ℕ :=
  (if i < 0 then -i else if (n : ℤ) ≤ i then 2 * ((n : ℤ) - 1) - i else i).toNat

/-- The separable 5-tap kernel of cv2.GaussianBlur(mask, (5,5), 0): with sigma
0 and kernel size 5 OpenCV takes the fixed small-kernel table
[1,4,6,4,1]/16, and for 8-bit images runs it in fixed point with 8 fraction
bits per pass, so the taps are [16,64,96,64,16] and the row and column passes
accumulate exactly in integers. -/
def gaussW : Fin 5 → ℕ := ![16, 64, 96, 64, 16]

/-- cv2.GaussianBlur(img, (5,5), 0) at one pixel: the exact fixed-point sum of
the 25 weighted neighbours, descaled by 2^16 with round-half-up. -/
def gauss5 (img : Img) : Img := fun x y =>
  ((Finset.univ : Finset (Fin 5 × Fin 5)).sum (fun ij =>
      gaussW ij.1 * gaussW ij.2 *
        img (reflect101 targetW ((x : ℤ) + (ij.1 : ℕ) - 2))
          (reflect101 targetH ((y : ℤ) + (ij.2 : ℕ) - 2)) )
    + 32768) / 65536

/-- create_marker_mask (lines 136-145): the blurred stencil. -/
def createMarkerMask (p : ℕ × ℕ) : Img := gauss5 (markerStencil p.1 p.2)

/-- The four canonical marker footprint positions (lines 148-153). -/
def markerPositions : List (ℕ × ℕ) :=
  [(0, 0), (targetW - markerSize, 0), (targetW - markerSize, targetH - markerSize),
   (0, targetH - markerSize)]

/-- The pixel-wise cv2.min fold over the four per-corner masks starting from
the 255 canvas (lines 156-159). -/
def combinedMask : Img := fun x y =>
  markerPositions.foldl (fun acc p => min acc (createMarkerMask p x y)) 255

/-- cv2.multiply(a, c, scale=1/255) on 8-bit values: saturate(round(a*c/255)).
The fraction a*c/255 has odd denominator so a half tie never occurs and
round-half-up equals the OpenCV rounding. -/
def cvMul255 (a c : ℕ) : ℕ := min 255 ((2 * a * c + 255) / 510)

/-- Saturating 8-bit cv2.add. -/
def cvAdd8 (a b : ℕ) : ℕ := min 255 (a + b)

/-- cv2.threshold(v, 127, 255, THRESH_BINARY). -/
def threshBin127 (v : ℕ) : ℕ := if 127 < v then 255 else 0

/-- Lines 162-169 applied to the externally produced contour mask and
gradient mask: attenuate by the combined exclusion mask, re-add the bitwise
intersection with the gradient mask (saturating), then binarize at 127. -/
def finalizeAlpha (mask gradientMask : Img) : Img := fun x y =>
  let a1 := cvMul255 (mask x y) (combinedMask x y)
  threshBin127 (cvAdd8 a1 (Nat.land a1 (gradientMask x y)))

/-- One RGBA pixel. -/
structure Pix where
  r : ℕ
  g : ℕ
  b : ℕ
  a : ℕ

/-- The RGBA artifact of remove_background: the canonical canvas size plus the
pixel map. -/
structure RGBAResult where
  width : ℕ
  height : ℕ
  pix : ℕ → ℕ → Pix

/-- Lines 172-181: copy the three colour channels, overwrite alpha with the
finalized mask, force the whole pixel to (0,0,0,0) where alpha is 0, and
re-assert alpha 255 where the mask is 255. -/
def composeRGBA (frame : ℕ → ℕ → ℕ × ℕ × ℕ) (alpha : Img) : ℕ → ℕ → Pix := fun x y =>
  if alpha x y = 0 then ⟨0, 0, 0, 0⟩
  else ⟨(frame x y).1, (frame x y).2.1, (frame x y).2.2,
    if alpha x y = 255 then 255 else alpha x y⟩

/-- SimpleScanner.remove_background, modeled over the canonical resized frame
(given as its channel map) and the outputs of the external segmentation
stages: whether cv2.findContours returned any contour, the filled, closed and
dilated largest-contour mask (lines 113-125), and the morphological gradient
mask (lines 128-129).  When no contour is found the mask stays the all-zero
np.zeros_like canvas (line 111) and the exclusion block is skipped. -/
def removeBackground (frame : ℕ → ℕ → ℕ × ℕ × ℕ)
    (contoursFound : Bool) (contourMask gradientMask : Img) : RGBAResult :=
  ⟨targetW, targetH,
    composeRGBA frame
      (if contoursFound then finalizeAlpha contourMask gradientMask else fun _ _ => 0)⟩

theorem threshBin127_cases (v : ℕ) : threshBin127 v = 0 ∨ threshBin127 v = 255 := by
  unfold threshBin127
  split
  · exact Or.inr rfl
  · exact Or.inl rfl

/-! ## C2: the finalized alpha plane is strictly binary -/

/-- C2: whatever the external segmentation stages produce, every alpha value
of the RGBA result of remove_background is exactly 0 or exactly 255: the
final 127/255 binarization (or the all-zero no-contour mask) leaves no
intermediate transparency. -/
theorem removeBackground_alpha_binary (frame : ℕ → ℕ → ℕ × ℕ × ℕ)
    (cf : Bool) (cm gm : Img) (x y : ℕ) :
    ((removeBackground frame cf cm gm).pix x y).a = 0 ∨
      ((removeBackground frame cf cm gm).pix x y).a = 255 := by
  show (composeRGBA frame _ x y).a = 0 ∨ (composeRGBA frame _ x y).a = 255
  cases cf with
  | false => exact Or.inl rfl
  | true =>
      unfold composeRGBA
      rcases threshBin127_cases
          (cvAdd8 (cvMul255 (cm x y) (combinedMask x y))
            (Nat.land (cvMul255 (cm x y) (combinedMask x y)) (gm x y))) with h | h
      · rw [if_pos]
        · exact Or.inl rfl
        · exact h
      · rw [if_neg, if_pos]
        · exact Or.inr rfl
        · exact h
        · simp [finalizeAlpha, h]

/-! ## C3: transparent pixels are black -/

theorem composeRGBA_a_zero (frame : ℕ → ℕ → ℕ × ℕ × ℕ) (alpha : Img) (x y : ℕ)
    (h : (composeRGBA frame alpha x y).a = 0) :
    (composeRGBA frame alpha x y).r = 0 ∧ (composeRGBA frame alpha x y).g = 0 ∧
      (composeRGBA frame alpha x y).b = 0 := by
  by_cases h0 : alpha x y = 0
  · simp [composeRGBA, h0]
  · exfalso
    simp only [composeRGBA, if_neg h0] at h
    revert h
    split
    · exact fun h => absurd h (by decide)
    · exact fun h => h0 h

/-- C3: at every pixel of the RGBA result whose finalized alpha is 0, all
three colour channels are 0, whatever the source colour there was. -/
theorem removeBackground_transparent_black (frame : ℕ → ℕ → ℕ × ℕ × ℕ)
    (cf : Bool) (cm gm : Img) (x y : ℕ)
    (h : ((removeBackground frame cf cm gm).pix x y).a = 0) :
    ((removeBackground frame cf cm gm).pix x y).r = 0 ∧
      ((removeBackground frame cf cm gm).pix x y).g = 0 ∧
      ((removeBackground frame cf cm gm).pix x y).b = 0 :=
  composeRGBA_a_zero frame _ x y h

/-- C3 witness: the no-contour branch on a frame of colour (9, 8, 7). -/
theorem removeBackground_transparent_black_w :
    ((removeBackground (fun _ _ => (9, 8, 7)) false (fun _ _ => 0) (fun _ _ => 0)).pix 0 0).a
        = 0 ∧
      (((removeBackground (fun _ _ => (9, 8, 7)) false (fun _ _ => 0) (fun _ _ => 0)).pix 0 0).r
          = 0 ∧
        ((removeBackground (fun _ _ => (9, 8, 7)) false (fun _ _ => 0)
              (fun _ _ => 0)).pix 0 0).g = 0 ∧
        ((removeBackground (fun _ _ => (9, 8, 7)) false (fun _ _ => 0)
              (fun _ _ => 0)).pix 0 0).b = 0) :=
  ⟨rfl, removeBackground_transparent_black _ false _ _ 0 0 rfl⟩

/-! ## C7: no contours is not an error -/

/-- C7: when the external contour stage finds no contour, remove_background
still returns (it raises nothing on this path) an 800 by 600 RGBA result
whose alpha channel is all zero: the fully transparent outcome. -/
theorem removeBackground_no_contours_transparent (frame : ℕ → ℕ → ℕ × ℕ × ℕ)
    (cm gm : Img) :
    (removeBackground frame false cm gm).width = 800 ∧
      (removeBackground frame false cm gm).height = 600 ∧
      ∀ x y : ℕ, ((removeBackground frame false cm gm).pix x y).a = 0 :=
  ⟨rfl, rfl, fun _ _ => rfl⟩

/-! ## C5: the marker exclusion stencil -/

theorem reflect101_of_lt (n : ℕ) (i : ℤ) (h0 : 0 ≤ i) (hn : i < (n : ℤ)) :
    reflect101 n i = i.toNat := by
  unfold reflect101
  rw [if_neg (by omega), if_neg (by omega)]

theorem markerStencil_inner_zero (mx my u v : ℕ)
    (hu1 : mx + 20 ≤ u) (hu2 : u ≤ mx + 90) (hv1 : my + 20 ≤ v) (hv2 : v ≤ my + 90) :
    markerStencil mx my u v = 0 := by
  have hc : mx + padding + gradientWidth ≤ u ∧ u ≤ mx + markerSize - padding - gradientWidth ∧
      my + padding + gradientWidth ≤ v ∧ v ≤ my + markerSize - padding - gradientWidth := by
    unfold padding gradientWidth markerSize
    omega
  unfold markerStencil
  rw [if_pos hc]

/-- Inside the inner exclusion rectangle at a margin of at least the blur
radius 2, every one of the 25 blurred neighbours is a stencil zero, so the
blurred per-corner mask is 0 there. -/
theorem gauss5_stencil_zero (mx my x y : ℕ) (hmx : mx ≤ 690) (hmy : my ≤ 490)
    (hx1 : mx + 22 ≤ x) (hx2 : x ≤ mx + 88) (hy1 : my + 22 ≤ y) (hy2 : y ≤ my + 88) :
    gauss5 (markerStencil mx my) x y = 0 := by
  unfold gauss5
  rw [Finset.sum_eq_zero]
  · decide
  · intro ij _
    have h5x : (ij.1 : ℕ) < 5 := ij.1.isLt
    have h5y : (ij.2 : ℕ) < 5 := ij.2.isLt
    have hW : targetW = 800 := rfl
    have hH : targetH = 600 := rfl
    rw [hW, hH, reflect101_of_lt 800 _ (by omega) (by omega),
      reflect101_of_lt 600 _ (by omega) (by omega),
      markerStencil_inner_zero mx my _ _ (by omega) (by omega) (by omega) (by omega),
      Nat.mul_zero]

theorem combinedMask_foldl (x y : ℕ) :
    combinedMask x y =
      min (min (min (min 255 (createMarkerMask (0, 0) x y)) (createMarkerMask (690, 0) x y))
        (createMarkerMask (690, 490) x y)) (createMarkerMask (0, 490) x y) := by
  have h2 : targetW - markerSize = 690 := rfl
  have h3 : targetH - markerSize = 490 := rfl
  simp [combinedMask, markerPositions, h2, h3]

theorem combinedMask_zero (p : ℕ × ℕ) (hp : p ∈ markerPositions) (x y : ℕ)
    (hx1 : p.1 + 22 ≤ x) (hx2 : x ≤ p.1 + 88) (hy1 : p.2 + 22 ≤ y) (hy2 : y ≤ p.2 + 88) :
    combinedMask x y = 0 := by
  have hp4 : p = (0, 0) ∨ p = (690, 0) ∨ p = (690, 490) ∨ p = (0, 490) := by
    have h2 : targetW - markerSize = 690 := rfl
    have h3 : targetH - markerSize = 490 := rfl
    simpa [markerPositions, h2, h3] using hp
  rw [combinedMask_foldl]
  rcases hp4 with rfl | rfl | rfl | rfl
  · rw [show createMarkerMask (0, 0) x y = 0 from
      gauss5_stencil_zero 0 0 x y (by omega) (by omega) (by simpa using hx1)
        (by simpa using hx2) (by simpa using hy1) (by simpa using hy2)]
    simp
  · rw [show createMarkerMask (690, 0) x y = 0 from
      gauss5_stencil_zero 690 0 x y (by omega) (by omega) (by simpa using hx1)
        (by simpa using hx2) (by simpa using hy1) (by simpa using hy2)]
    simp
  · rw [show createMarkerMask (690, 490) x y = 0 from
      gauss5_stencil_zero 690 490 x y (by omega) (by omega) (by simpa using hx1)
        (by simpa using hx2) (by simpa using hy1) (by simpa using hy2)]
    simp
  · rw [show createMarkerMask (0, 490) x y = 0 from
      gauss5_stencil_zero 0 490 x y (by omega) (by omega) (by simpa using hx1)
        (by simpa using hx2) (by simpa using hy1) (by simpa using hy2)]
    simp

theorem finalizeAlpha_zero (cm gm : Img) (x y : ℕ) (hc : combinedMask x y = 0) :
    finalizeAlpha cm gm x y = 0 := by
  have h1 : cvMul255 (cm x y) 0 = 0 := by
    simp [cvMul255]
  show threshBin127 (cvAdd8 (cvMul255 (cm x y) (combinedMask x y))
      (Nat.land (cvMul255 (cm x y) (combinedMask x y)) (gm x y))) = 0
  rw [hc, h1, show Nat.land 0 (gm x y) = 0 from Nat.zero_and _]
  rfl

/-- C5 counterexample: the claim says pixels of the footprint squares beyond
the 15-pixel padding boundary never retain full alpha.  Pixel (17, 55) lies
in the top-left 110-pixel footprint square, 17 and 55 both being at least
padding = 15 past the square origin, i.e. beyond the padding boundary; with
the raw segmentation marking everything foreground (mask 255, a gradient
mask of 0 consistent with a constant mask) its blurred stencil value is the
mid-gray 128, the attenuated alpha is 128, and 128 exceeds the binarization
threshold 127 — so the finalized alpha there is the full 255. -/
theorem removeBackground_marker_retains_alpha_cex :
    (padding ≤ 17 ∧ 17 < markerSize ∧ padding ≤ 55 ∧ 55 < markerSize) ∧
      ((removeBackground (fun _ _ => (255, 255, 255)) true (fun _ _ => 255)
          (fun _ _ => 0)).pix 17 55).a = 255 := by
  constructor
  · decide
  · decide

/-- C5 (amended): the exclusion stencil suppresses alpha only strictly inside
the inner zero rectangle, at offsets between padding + gradient width + blur
radius = 22 and markerSize - 22 = 88 from each footprint origin: there the
finalized alpha is 0 for every segmentation mask and gradient mask.  In the
mid-gray ring between the padding boundary and the inner rectangle,
raw-foreground pixels keep full 255 alpha, because the attenuated value 128
still exceeds the binarization threshold 127 (see the counterexample). -/
theorem removeBackground_marker_inner_transparent (frame : ℕ → ℕ → ℕ × ℕ × ℕ)
    (cm gm : Img) (p : ℕ × ℕ) (hp : p ∈ markerPositions) (x y : ℕ)
    (hx1 : p.1 + 22 ≤ x) (hx2 : x ≤ p.1 + 88) (hy1 : p.2 + 22 ≤ y) (hy2 : y ≤ p.2 + 88) :
    ((removeBackground frame true cm gm).pix x y).a = 0 := by
  have hα : finalizeAlpha cm gm x y = 0 :=
    finalizeAlpha_zero cm gm x y (combinedMask_zero p hp x y hx1 hx2 hy1 hy2)
  show (composeRGBA frame (if true then finalizeAlpha cm gm else fun _ _ => 0) x y).a = 0
  rw [if_pos rfl]
  unfold composeRGBA
  rw [if_pos hα]

/-- C5 witness: the centre region of the top-left footprint, pixel (30, 30),
with the raw segmentation marking everything foreground. -/
theorem removeBackground_marker_inner_transparent_w :
    ((0, 0) ∈ markerPositions) ∧
      ((removeBackground (fun _ _ => (255, 255, 255)) true (fun _ _ => 255)
          (fun _ _ => 0)).pix 30 30).a = 0 :=
  ⟨by simp [markerPositions],
    removeBackground_marker_inner_transparent _ _ _ (0, 0) (by simp [markerPositions]) 30 30
      (by norm_num) (by norm_num) (by norm_num) (by norm_num)⟩

/-! ## C6: the intensity image and its channel weights -/

/-- cvRound, the rounding OpenCV applies inside saturate_cast on float
results: round to nearest, ties to even. -/
def cvRound (q : ℚ) : ℤ :=
  if q - ⌊q⌋ < 1 / 2 then ⌊q⌋
  else if (1 : ℚ) / 2 < q - ⌊q⌋ then ⌊q⌋ + 1
  else if ⌊q⌋ % 2 = 0 then ⌊q⌋ else ⌊q⌋ + 1

/-- saturate_cast to an 8-bit value. -/
def sat8 (z : ℤ) : ℕ := (max 0 (min 255 z)).toNat

/-- cv2.addWeighted on single 8-bit values: saturate(round(a*s1 + b*s2 + g)). -/
def cvAddWeighted (s1 : ℕ) (al : ℚ) (s2 : ℕ) (be : ℚ) (ga : ℚ) : ℕ :=
  sat8 (cvRound (al * s1 + be * s2 + ga))

/-- Line 95 of simplescanner.py applied to one pixel: the three positional
channels (c0, c1, c2) of the canonical frame — which the code names b, g, r —
are combined as addWeighted(addWeighted(c0, 0.299, c1, 0.587, 0), 0.4, c2,
0.6, 0). -/
def grayPix (c0 c1 c2 : ℕ) : ℕ :=
  cvAddWeighted (cvAddWeighted c0 (299 / 1000) c1 (587 / 1000) 0) (4 / 10) c2 (6 / 10) 0

/-- cv2.cvtColor(frame, COLOR_BGR2RGB), applied to the photographed frame by
scan_from_frame (main_ocean.py line 186) before scan and remove_background
run; scan and the resize preserve channel order, so the frame
remove_background splits is RGB-ordered. -/
def bgr2rgb (p : ℕ × ℕ × ℕ) : ℕ × ℕ × ℕ := (p.2.2, p.2.1, p.1)

/-- The intensity remove_background computes for a photographed BGR colour. -/
def grayOfPhotoBGR (p : ℕ × ℕ × ℕ) : ℕ :=
  grayPix (bgr2rgb p).1 (bgr2rgb p).2.1 (bgr2rgb p).2.2

/-- C6 (code bug): the claim — and the code comment "Give more weight to red
channel" — say the red channel of the photographed drawing gets the extra
0.6 weight.  It does not: the caller hands remove_background an RGB-ordered
frame, while the split on line 93 names the channels b, g, r as if the frame
were BGR, so the 0.6 weight lands on the photographed BLUE channel.  A pure
red photographed pixel, BGR (0, 0, 200), receives intensity 24 (weight about
0.12 = 0.4 times 0.299), while a pure blue one, BGR (200, 0, 0), receives
120 (weight 0.6): blue, not red, is the heavily weighted channel. -/
theorem gray_extra_weight_on_blue :
    grayOfPhotoBGR (0, 0, 200) = 24 ∧ grayOfPhotoBGR (200, 0, 0) = 120 ∧
      grayOfPhotoBGR (0, 0, 200) < grayOfPhotoBGR (200, 0, 0) := by
  have h1 : grayOfPhotoBGR (0, 0, 200) = 24 := by
    norm_num [grayOfPhotoBGR, bgr2rgb, grayPix, cvAddWeighted, cvRound, sat8]
    rw [show Int.toNat 60 = 60 from rfl]
    norm_num
    rfl
  have h2 : grayOfPhotoBGR (200, 0, 0) = 120 := by
    norm_num [grayOfPhotoBGR, bgr2rgb, grayPix, cvAddWeighted, cvRound, sat8]
    rfl
  exact ⟨h1, h2, by rw [h1, h2]; norm_num⟩

end FishScanner
